import Mathlib

/-!
Verification of the zone-occupancy tracker in
`ProfessionalHallwayMonitor` (crowd_counting_rpi.py).

The state of the monitor and the two operations `process_frame` and
`reset_stats` are embedded as executable Lean definitions, translated
line by line from the Python source.  Track identities are integers,
bounding-box coordinates are integers, wall-clock time is an integer
count of microseconds (so that `total_seconds() >= 1.0` is the exact
integer test `10^6 <= elapsed`), and the fps estimate is a rational.  The Python `dict` of per-track memberships is
an association list with last-write-wins insert, and the
`deque(maxlen=100)` occupancy history is a list that evicts from the
front at capacity.
-/

/-- One detection returned by the detector: a persistent track id and an
axis-aligned bounding box (x1, y1, x2, y2) in pixel coordinates. -/
structure Detection where
  id : Int
  x1 : Int
  y1 : Int
  x2 : Int
  y2 : Int
deriving DecidableEq, Repr

/-- Normalized zone bounds, `(min_x, min_y, max_x, max_y)` as computed at
the top of `process_frame`. -/
structure Bounds where
  mnx : Int
  mny : Int
  mxx : Int
  mxy : Int
deriving DecidableEq, Repr

/-- Full mutable state of `ProfessionalHallwayMonitor` that
`process_frame` and `reset_stats` read or write. -/
structure MonitorState where
  in_zone_count : Nat
  out_zone_count : Nat
  current_zone_occupancy : Nat
  alerts_count : Nat
  frame_count : Nat
  tracked_objects : List (Int × Bool)
  occupancy_history : List Nat
  in_history : List Nat
  out_history : List Nat
  fps_start_time : Int
  fps_frame_count : Nat
  current_fps : Rat
deriving DecidableEq, Repr

/-- Lookup in the membership dict (`track_id in self.tracked_objects` /
`self.tracked_objects[track_id]`). -/
def dictLookup : List (Int × Bool) → Int → Option Bool
  | [], _ => none
  | (a, b) :: rest, k => if a = k then some b else dictLookup rest k

/-- Assignment `self.tracked_objects[track_id] = is_inside`: replace the
value if the key is present, append otherwise. -/
def dictInsert : List (Int × Bool) → Int → Bool → List (Int × Bool)
  | [], k, v => [(k, v)]
  | (a, b) :: rest, k, v =>
    if a = k then (a, v) :: rest else (a, b) :: dictInsert rest k v

/-- Anchor x-coordinate: `feet_x = int(cx)` with `cx = int((x1+x2)/2)`
(truncation toward zero, as Python `int()` on the float quotient). -/
def anchorX (d : Detection) : Int := Int.tdiv (d.x1 + d.x2) 2

/-- Anchor y-coordinate: `feet_y = int(y2)`, the box bottom edge. -/
def anchorY (d : Detection) : Int := d.y2

/-- Containment test
`(min_x <= feet_x <= max_x) and (min_y <= feet_y <= max_y)`. -/
def insideB (z : Bounds) (d : Detection) : Bool :=
  (decide (z.mnx ≤ anchorX d) && decide (anchorX d ≤ z.mxx)) &&
  (decide (z.mny ≤ anchorY d) && decide (anchorY d ≤ z.mxy))

/-- Zone bound normalization from the two configured corner points:
`min_x = min(zone_x1, zone_x2)` etc. -/
def zoneBounds (p1 p2 : Int × Int) : Bounds :=
  ⟨min p1.1 p2.1, min p1.2 p2.2, max p1.1 p2.1, max p1.2 p2.2⟩

/-- Body of the per-detection loop in `process_frame`: update the
current-frame occupant set and the membership / entry / exit state for
one detection. -/
def trackStep (z : Bounds) (p : Finset Int × MonitorState) (d : Detection) :
    Finset Int × MonitorState :=
  let isIn := insideB z d
  let occ := if isIn then insert d.id p.1 else p.1
  let st := p.2
  let st2 :=
    match dictLookup st.tracked_objects d.id with
    | none =>
      { st with tracked_objects := dictInsert st.tracked_objects d.id isIn }
    | some was =>
      let stc :=
        if !was && isIn then
          { st with in_zone_count := st.in_zone_count + 1 }
        else if was && !isIn then
          { st with out_zone_count := st.out_zone_count + 1 }
        else st
      { stc with tracked_objects := dictInsert stc.tracked_objects d.id isIn }
  (occ, st2)

/-- `self.frame_count += 1` and `self.fps_frame_count += 1`. -/
def bumpFrame (s : MonitorState) : MonitorState :=
  { s with frame_count := s.frame_count + 1,
           fps_frame_count := s.fps_frame_count + 1 }

/-- FPS window update: when at least one second has elapsed since
`fps_start_time`, recompute `current_fps` as frames per elapsed second
and restart the window. -/
def fpsUpdate (now : Int) (s : MonitorState) : MonitorState :=
  if 1000000 ≤ now - s.fps_start_time then
    { s with current_fps :=
               (s.fps_frame_count : Rat) * 1000000 /
                 ((now - s.fps_start_time : Int) : Rat),
             fps_frame_count := 0,
             fps_start_time := now }
  else s

/-- The detection loop of `process_frame`.  `none` models
`results[0].boxes.id is None` (no tracked boxes this frame): the loop is
skipped and the occupant set stays empty. -/
def runDetections (z : Bounds) (dets : Option (List Detection))
    (s : MonitorState) : Finset Int × MonitorState :=
  match dets with
  | none => (∅, s)
  | some ds => ds.foldl (trackStep z) (∅, s)

/-- `self.current_zone_occupancy = len(current_frame_occupants)` and the
append to the bounded `occupancy_history` deque. -/
def pushHistory (h : List Nat) (x : Nat) : List Nat :=
  if h.length < 100 then h ++ [x] else h.drop (h.length + 1 - 100) ++ [x]

/-- Statistics update step 4 of `process_frame`. -/
def recordOccupancy (n : Nat) (s : MonitorState) : MonitorState :=
  { s with current_zone_occupancy := n,
           occupancy_history := pushHistory s.occupancy_history n }

/-- `if self.current_zone_occupancy >= alert_threshold: self.alerts_count += 1`. -/
def alertUpdate (th : Int) (s : MonitorState) : MonitorState :=
  if th ≤ (s.current_zone_occupancy : Int) then
    { s with alerts_count := s.alerts_count + 1 }
  else s

/-- `process_frame(frame, line_points, alert_threshold)`, restricted to
its effect on monitor state.  `p1, p2` are the two configured corner
points (`line_points`), `th` the alert threshold, `now` the wall clock,
`dets` the tracked detections of this frame. -/
def process_frame (p1 p2 : Int × Int) (th : Int) (now : Int)
    (dets : Option (List Detection)) (s : MonitorState) : MonitorState :=
  let s1 := fpsUpdate now (bumpFrame s)
  let r := runDetections (zoneBounds p1 p2) dets s1
  alertUpdate th (recordOccupancy r.1.card r.2)

/-- `reset_stats()`: zero the counters, empty the membership dict and
the three history deques; the fps estimator fields are not touched. -/
def reset_stats (s : MonitorState) : MonitorState :=
  { s with in_zone_count := 0, out_zone_count := 0,
           current_zone_occupancy := 0, alerts_count := 0,
           frame_count := 0, tracked_objects := [],
           occupancy_history := [], in_history := [], out_history := [] }

/-- The state built by `__init__` (all counters zero, dict and deques
empty, fps window starting at construction time `t0`). -/
def initState (t0 : Int) : MonitorState :=
  ⟨0, 0, 0, 0, 0, [], [], [], [], t0, 0, 0⟩

/-- Inputs of one `process_frame` call. -/
structure FrameInput where
  p1 : Int × Int
  p2 : Int × Int
  th : Int
  now : Int
  dets : Option (List Detection)
deriving DecidableEq, Repr

/-- A sequence of `process_frame` calls. -/
def runFrames (s : MonitorState) (inputs : List FrameInput) : MonitorState :=
  inputs.foldl (fun t i => process_frame i.p1 i.p2 i.th i.now i.dets t) s

/-- States reachable from a freshly constructed monitor by any
interleaving of `process_frame` and `reset_stats`. -/
inductive Reachable : MonitorState → Prop
  | init (t0 : Int) : Reachable (initState t0)
  | step (i : FrameInput) {s : MonitorState} :
      Reachable s → Reachable (process_frame i.p1 i.p2 i.th i.now i.dets s)
  | reset {s : MonitorState} : Reachable s → Reachable (reset_stats s)

/-- Distinct track identities of the frame whose anchor lies inside the
zone (declarative counterpart of the occupant set built by the loop). -/
def insideIds (z : Bounds) (ds : List Detection) : Finset Int :=
  ((ds.filter (fun d => insideB z d)).map Detection.id).toFinset

/-- Per-detection entry-event contribution given the pre-frame
membership dict. -/
def entryDelta (z : Bounds) (m : List (Int × Bool)) (d : Detection) : Nat :=
  match dictLookup m d.id with
  | none => 0
  | some was => if !was && insideB z d then 1 else 0

/-- Per-detection exit-event contribution given the pre-frame membership
dict. -/
def exitDelta (z : Bounds) (m : List (Int × Bool)) (d : Detection) : Nat :=
  match dictLookup m d.id with
  | none => 0
  | some was => if was && !(insideB z d) then 1 else 0

/-- Total entry events of a frame against a fixed pre-frame dict. -/
def entrySum (z : Bounds) (m : List (Int × Bool)) (ds : List Detection) : Nat :=
  (ds.map (entryDelta z m)).sum

/-- Total exit events of a frame against a fixed pre-frame dict. -/
def exitSum (z : Bounds) (m : List (Int × Bool)) (ds : List Detection) : Nat :=
  (ds.map (exitDelta z m)).sum

/-- Occupancy a frame input produces, as a function of the input alone. -/
def frameOcc (i : FrameInput) : Nat :=
  match i.dets with
  | none => 0
  | some ds => (insideIds (zoneBounds i.p1 i.p2) ds).card

/-- The suffix of the last `n` elements of a list. -/
def lastN (n : Nat) (l : List Nat) : List Nat := l.drop (l.length - n)

/-! ### Dictionary lemmas -/

theorem dictLookup_insert (m : List (Int × Bool)) (k : Int) (v : Bool)
    (j : Int) :
    dictLookup (dictInsert m k v) j = if j = k then some v else dictLookup m j := by
  induction m with
  | nil =>
    simp only [dictInsert, dictLookup]
    by_cases h : j = k
    · subst h; simp
    · rw [if_neg (fun hh => h hh.symm), if_neg h]
  | cons a rest ih =>
    obtain ⟨a1, a2⟩ := a
    simp only [dictInsert]
    by_cases hak : a1 = k
    · subst hak
      simp only [if_pos rfl, dictLookup]
      by_cases hja : a1 = j
      · rw [if_pos hja, if_pos hja.symm]
      · rw [if_neg hja, if_neg (fun hh => hja hh.symm), if_neg hja]
    · rw [if_neg hak]
      simp only [dictLookup]
      by_cases hja : a1 = j
      · rw [if_pos hja, if_pos hja, if_neg (fun hh : j = k => hak (hja.trans hh))]
      · rw [if_neg hja, if_neg hja, ih]

/-! ### Characterization of one loop iteration -/

theorem trackStep_spec (z : Bounds) (p : Finset Int × MonitorState)
    (d : Detection) :
    trackStep z p d =
      (if insideB z d then insert d.id p.1 else p.1,
       { p.2 with
           in_zone_count :=
             p.2.in_zone_count + entryDelta z p.2.tracked_objects d,
           out_zone_count :=
             p.2.out_zone_count + exitDelta z p.2.tracked_objects d,
           tracked_objects :=
             dictInsert p.2.tracked_objects d.id (insideB z d) }) := by
  unfold trackStep entryDelta exitDelta
  cases h : dictLookup p.2.tracked_objects d.id with
  | none => simp [h]
  | some was => cases was <;> cases hin : insideB z d <;> simp [h, hin]

/-! ### Lemmas about the detection fold -/

theorem foldTrack_fst (z : Bounds) (ds : List Detection) :
    ∀ (o : Finset Int) (s : MonitorState),
      (List.foldl (trackStep z) (o, s) ds).1 = o ∪ insideIds z ds := by
  induction ds with
  | nil => intro o s; simp [insideIds]
  | cons d rest ih =>
    intro o s
    rw [List.foldl_cons, trackStep_spec]
    rw [ih]
    cases hin : insideB z d
    · simp [insideIds, List.filter_cons, hin]
    · simp [insideIds, List.filter_cons, hin, Finset.insert_union,
            Finset.union_insert]

theorem foldTrack_unchanged (z : Bounds) (ds : List Detection) :
    ∀ (o : Finset Int) (s : MonitorState),
      (List.foldl (trackStep z) (o, s) ds).2.frame_count = s.frame_count ∧
      (List.foldl (trackStep z) (o, s) ds).2.alerts_count = s.alerts_count ∧
      (List.foldl (trackStep z) (o, s) ds).2.current_zone_occupancy =
        s.current_zone_occupancy ∧
      (List.foldl (trackStep z) (o, s) ds).2.occupancy_history =
        s.occupancy_history ∧
      (List.foldl (trackStep z) (o, s) ds).2.in_history = s.in_history ∧
      (List.foldl (trackStep z) (o, s) ds).2.out_history = s.out_history ∧
      (List.foldl (trackStep z) (o, s) ds).2.fps_start_time =
        s.fps_start_time ∧
      (List.foldl (trackStep z) (o, s) ds).2.fps_frame_count =
        s.fps_frame_count ∧
      (List.foldl (trackStep z) (o, s) ds).2.current_fps = s.current_fps := by
  induction ds with
  | nil => intro o s; simp
  | cons d rest ih =>
    intro o s
    rw [List.foldl_cons, trackStep_spec]
    exact ih _ _

theorem trackStep_mono (z : Bounds) (p : Finset Int × MonitorState)
    (d : Detection) :
    p.2.in_zone_count ≤ (trackStep z p d).2.in_zone_count ∧
    p.2.out_zone_count ≤ (trackStep z p d).2.out_zone_count := by
  rw [trackStep_spec]
  exact ⟨Nat.le_add_right _ _, Nat.le_add_right _ _⟩

theorem foldTrack_mono (z : Bounds) (ds : List Detection) :
    ∀ p : Finset Int × MonitorState,
      p.2.in_zone_count ≤ (List.foldl (trackStep z) p ds).2.in_zone_count ∧
      p.2.out_zone_count ≤ (List.foldl (trackStep z) p ds).2.out_zone_count := by
  induction ds with
  | nil => intro p; exact ⟨le_refl _, le_refl _⟩
  | cons d rest ih =>
    intro p
    rw [List.foldl_cons]
    exact ⟨le_trans (trackStep_mono z p d).1 (ih (trackStep z p d)).1,
           le_trans (trackStep_mono z p d).2 (ih (trackStep z p d)).2⟩

theorem entryDelta_insert_ne (z : Bounds) (m : List (Int × Bool)) (k : Int)
    (v : Bool) (d : Detection) (h : d.id ≠ k) :
    entryDelta z (dictInsert m k v) d = entryDelta z m d := by
  unfold entryDelta
  rw [dictLookup_insert, if_neg h]

theorem exitDelta_insert_ne (z : Bounds) (m : List (Int × Bool)) (k : Int)
    (v : Bool) (d : Detection) (h : d.id ≠ k) :
    exitDelta z (dictInsert m k v) d = exitDelta z m d := by
  unfold exitDelta
  rw [dictLookup_insert, if_neg h]

theorem entrySum_insert_notmem (z : Bounds) (m : List (Int × Bool)) (k : Int)
    (v : Bool) (ds : List Detection) (h : k ∉ ds.map Detection.id) :
    entrySum z (dictInsert m k v) ds = entrySum z m ds := by
  unfold entrySum
  congr 1
  apply List.map_congr_left
  intro d hd
  exact entryDelta_insert_ne z m k v d
    (fun he => h (he ▸ List.mem_map_of_mem Detection.id hd))

theorem exitSum_insert_notmem (z : Bounds) (m : List (Int × Bool)) (k : Int)
    (v : Bool) (ds : List Detection) (h : k ∉ ds.map Detection.id) :
    exitSum z (dictInsert m k v) ds = exitSum z m ds := by
  unfold exitSum
  congr 1
  apply List.map_congr_left
  intro d hd
  exact exitDelta_insert_ne z m k v d
    (fun he => h (he ▸ List.mem_map_of_mem Detection.id hd))

theorem foldTrack_counts (z : Bounds) (ds : List Detection) :
    ∀ (o : Finset Int) (s : MonitorState),
      (ds.map Detection.id).Nodup →
      (List.foldl (trackStep z) (o, s) ds).2.in_zone_count =
        s.in_zone_count + entrySum z s.tracked_objects ds ∧
      (List.foldl (trackStep z) (o, s) ds).2.out_zone_count =
        s.out_zone_count + exitSum z s.tracked_objects ds := by
  induction ds with
  | nil => intro o s _; simp [entrySum, exitSum]
  | cons d rest ih =>
    intro o s hnd
    rw [List.map_cons, List.nodup_cons] at hnd
    obtain ⟨hni, hnd'⟩ := hnd
    rw [List.foldl_cons, trackStep_spec]
    obtain ⟨h1, h2⟩ := ih _ _ hnd'
    rw [h1, h2]
    simp only [entrySum_insert_notmem z _ _ _ _ hni,
               exitSum_insert_notmem z _ _ _ _ hni]
    constructor
    · simp [entrySum, Nat.add_assoc]
    · simp [exitSum, Nat.add_assoc]

theorem foldTrack_lookup_notmem (z : Bounds) (ds : List Detection) :
    ∀ (o : Finset Int) (s : MonitorState) (j : Int),
      j ∉ ds.map Detection.id →
      dictLookup (List.foldl (trackStep z) (o, s) ds).2.tracked_objects j =
        dictLookup s.tracked_objects j := by
  induction ds with
  | nil => intro o s j _; rfl
  | cons d rest ih =>
    intro o s j hj
    rw [List.map_cons, List.mem_cons] at hj
    push_neg at hj
    rw [List.foldl_cons, trackStep_spec]
    rw [ih _ _ _ hj.2]
    exact (dictLookup_insert _ _ _ _).trans (if_neg hj.1)

theorem foldTrack_lookup_mem (z : Bounds) (ds : List Detection) :
    ∀ (o : Finset Int) (s : MonitorState) (det : Detection),
      (ds.map Detection.id).Nodup → det ∈ ds →
      dictLookup (List.foldl (trackStep z) (o, s) ds).2.tracked_objects det.id =
        some (insideB z det) := by
  induction ds with
  | nil => intro o s det _ hmem; exact absurd hmem (List.not_mem_nil det)
  | cons d rest ih =>
    intro o s det hnd hmem
    rw [List.map_cons, List.nodup_cons] at hnd
    obtain ⟨hni, hnd'⟩ := hnd
    rw [List.foldl_cons, trackStep_spec]
    rcases List.mem_cons.mp hmem with heq | hrest
    · subst heq
      rw [foldTrack_lookup_notmem z rest _ _ _ hni]
      exact (dictLookup_insert _ _ _ _).trans (if_pos rfl)
    · exact ih _ _ det hnd' hrest

theorem foldTrack_some_preserved (z : Bounds) (ds : List Detection) :
    ∀ (o : Finset Int) (s : MonitorState) (j : Int) (b : Bool),
      dictLookup s.tracked_objects j = some b →
      ∃ c, dictLookup
          (List.foldl (trackStep z) (o, s) ds).2.tracked_objects j = some c := by
  induction ds with
  | nil => intro o s j b h; exact ⟨b, h⟩
  | cons d rest ih =>
    intro o s j b h
    rw [List.foldl_cons, trackStep_spec]
    by_cases hj : j = d.id
    · exact ih _ _ j (insideB z d)
        ((dictLookup_insert _ _ _ _).trans (if_pos hj))
    · exact ih _ _ j b
        (((dictLookup_insert _ _ _ _).trans (if_neg hj)).trans h)

/-! ### Per-field projections of the pipeline stages -/

theorem fpsUpdate_in (now : Int) (s : MonitorState) :
    (fpsUpdate now s).in_zone_count = s.in_zone_count := by
  unfold fpsUpdate; split <;> rfl

theorem fpsUpdate_out (now : Int) (s : MonitorState) :
    (fpsUpdate now s).out_zone_count = s.out_zone_count := by
  unfold fpsUpdate; split <;> rfl

theorem fpsUpdate_occ (now : Int) (s : MonitorState) :
    (fpsUpdate now s).current_zone_occupancy = s.current_zone_occupancy := by
  unfold fpsUpdate; split <;> rfl

theorem fpsUpdate_alerts (now : Int) (s : MonitorState) :
    (fpsUpdate now s).alerts_count = s.alerts_count := by
  unfold fpsUpdate; split <;> rfl

theorem fpsUpdate_frame (now : Int) (s : MonitorState) :
    (fpsUpdate now s).frame_count = s.frame_count := by
  unfold fpsUpdate; split <;> rfl

theorem fpsUpdate_tracked (now : Int) (s : MonitorState) :
    (fpsUpdate now s).tracked_objects = s.tracked_objects := by
  unfold fpsUpdate; split <;> rfl

theorem fpsUpdate_hist (now : Int) (s : MonitorState) :
    (fpsUpdate now s).occupancy_history = s.occupancy_history := by
  unfold fpsUpdate; split <;> rfl

theorem fpsUpdate_in_hist (now : Int) (s : MonitorState) :
    (fpsUpdate now s).in_history = s.in_history := by
  unfold fpsUpdate; split <;> rfl

theorem fpsUpdate_out_hist (now : Int) (s : MonitorState) :
    (fpsUpdate now s).out_history = s.out_history := by
  unfold fpsUpdate; split <;> rfl

theorem alertUpdate_alerts (th : Int) (s : MonitorState) :
    (alertUpdate th s).alerts_count =
      s.alerts_count +
        (if th ≤ (s.current_zone_occupancy : Int) then 1 else 0) := by
  unfold alertUpdate; split <;> simp_all

theorem alertUpdate_in (th : Int) (s : MonitorState) :
    (alertUpdate th s).in_zone_count = s.in_zone_count := by
  unfold alertUpdate; split <;> rfl

theorem alertUpdate_out (th : Int) (s : MonitorState) :
    (alertUpdate th s).out_zone_count = s.out_zone_count := by
  unfold alertUpdate; split <;> rfl

theorem alertUpdate_occ (th : Int) (s : MonitorState) :
    (alertUpdate th s).current_zone_occupancy = s.current_zone_occupancy := by
  unfold alertUpdate; split <;> rfl

theorem alertUpdate_frame (th : Int) (s : MonitorState) :
    (alertUpdate th s).frame_count = s.frame_count := by
  unfold alertUpdate; split <;> rfl

theorem alertUpdate_tracked (th : Int) (s : MonitorState) :
    (alertUpdate th s).tracked_objects = s.tracked_objects := by
  unfold alertUpdate; split <;> rfl

theorem alertUpdate_hist (th : Int) (s : MonitorState) :
    (alertUpdate th s).occupancy_history = s.occupancy_history := by
  unfold alertUpdate; split <;> rfl

theorem alertUpdate_in_hist (th : Int) (s : MonitorState) :
    (alertUpdate th s).in_history = s.in_history := by
  unfold alertUpdate; split <;> rfl

theorem alertUpdate_out_hist (th : Int) (s : MonitorState) :
    (alertUpdate th s).out_history = s.out_history := by
  unfold alertUpdate; split <;> rfl

theorem foldTrack_frame (z : Bounds) (ds : List Detection) (o : Finset Int)
    (s : MonitorState) :
    (List.foldl (trackStep z) (o, s) ds).2.frame_count = s.frame_count :=
  (foldTrack_unchanged z ds o s).1

theorem foldTrack_alerts (z : Bounds) (ds : List Detection) (o : Finset Int)
    (s : MonitorState) :
    (List.foldl (trackStep z) (o, s) ds).2.alerts_count = s.alerts_count :=
  (foldTrack_unchanged z ds o s).2.1

theorem foldTrack_occ (z : Bounds) (ds : List Detection) (o : Finset Int)
    (s : MonitorState) :
    (List.foldl (trackStep z) (o, s) ds).2.current_zone_occupancy =
      s.current_zone_occupancy :=
  (foldTrack_unchanged z ds o s).2.2.1

theorem foldTrack_hist (z : Bounds) (ds : List Detection) (o : Finset Int)
    (s : MonitorState) :
    (List.foldl (trackStep z) (o, s) ds).2.occupancy_history =
      s.occupancy_history :=
  (foldTrack_unchanged z ds o s).2.2.2.1

theorem foldTrack_in_hist (z : Bounds) (ds : List Detection) (o : Finset Int)
    (s : MonitorState) :
    (List.foldl (trackStep z) (o, s) ds).2.in_history = s.in_history :=
  (foldTrack_unchanged z ds o s).2.2.2.2.1

theorem foldTrack_out_hist (z : Bounds) (ds : List Detection) (o : Finset Int)
    (s : MonitorState) :
    (List.foldl (trackStep z) (o, s) ds).2.out_history = s.out_history :=
  (foldTrack_unchanged z ds o s).2.2.2.2.2.1

/-! ### Field-level description of `process_frame` -/

theorem process_frame_frame_count (p1 p2 : Int × Int) (th : Int) (now : Int)
    (dets : Option (List Detection)) (s : MonitorState) :
    (process_frame p1 p2 th now dets s).frame_count = s.frame_count + 1 := by
  cases dets with
  | none =>
    simp [process_frame, runDetections, alertUpdate_frame, recordOccupancy,
          fpsUpdate_frame, bumpFrame]
  | some ds =>
    simp [process_frame, runDetections, alertUpdate_frame, recordOccupancy,
          foldTrack_frame, fpsUpdate_frame, bumpFrame]

theorem process_frame_occ (p1 p2 : Int × Int) (th : Int) (now : Int)
    (dets : Option (List Detection)) (s : MonitorState) :
    (process_frame p1 p2 th now dets s).current_zone_occupancy =
      frameOcc ⟨p1, p2, th, now, dets⟩ := by
  cases dets with
  | none =>
    simp [process_frame, runDetections, frameOcc, alertUpdate_occ,
          recordOccupancy]
  | some ds =>
    simp [process_frame, runDetections, frameOcc, alertUpdate_occ,
          recordOccupancy, foldTrack_fst]

theorem process_frame_hist (p1 p2 : Int × Int) (th : Int) (now : Int)
    (dets : Option (List Detection)) (s : MonitorState) :
    (process_frame p1 p2 th now dets s).occupancy_history =
      pushHistory s.occupancy_history (frameOcc ⟨p1, p2, th, now, dets⟩) := by
  cases dets with
  | none =>
    simp [process_frame, runDetections, frameOcc, alertUpdate_hist,
          recordOccupancy, fpsUpdate_hist, bumpFrame]
  | some ds =>
    simp [process_frame, runDetections, frameOcc, alertUpdate_hist,
          recordOccupancy, foldTrack_hist, foldTrack_fst, fpsUpdate_hist,
          bumpFrame]

theorem process_frame_alerts (p1 p2 : Int × Int) (th : Int) (now : Int)
    (dets : Option (List Detection)) (s : MonitorState) :
    (process_frame p1 p2 th now dets s).alerts_count =
      s.alerts_count +
        (if th ≤ (frameOcc ⟨p1, p2, th, now, dets⟩ : Int) then 1 else 0) := by
  cases dets with
  | none =>
    simp [process_frame, runDetections, frameOcc, alertUpdate_alerts,
          recordOccupancy, fpsUpdate_alerts, bumpFrame]
  | some ds =>
    simp [process_frame, runDetections, frameOcc, alertUpdate_alerts,
          recordOccupancy, foldTrack_alerts, foldTrack_fst, fpsUpdate_alerts,
          bumpFrame]

theorem process_frame_none_counts (p1 p2 : Int × Int) (th : Int) (now : Int)
    (s : MonitorState) :
    (process_frame p1 p2 th now none s).in_zone_count = s.in_zone_count ∧
    (process_frame p1 p2 th now none s).out_zone_count = s.out_zone_count ∧
    (process_frame p1 p2 th now none s).tracked_objects = s.tracked_objects := by
  refine ⟨?_, ?_, ?_⟩ <;>
    simp [process_frame, runDetections, alertUpdate_in, alertUpdate_out,
          alertUpdate_tracked, recordOccupancy, fpsUpdate_in, fpsUpdate_out,
          fpsUpdate_tracked, bumpFrame]

theorem process_frame_nil_counts (p1 p2 : Int × Int) (th : Int) (now : Int)
    (s : MonitorState) :
    (process_frame p1 p2 th now (some []) s).in_zone_count = s.in_zone_count ∧
    (process_frame p1 p2 th now (some []) s).out_zone_count =
      s.out_zone_count ∧
    (process_frame p1 p2 th now (some []) s).tracked_objects =
      s.tracked_objects := by
  refine ⟨?_, ?_, ?_⟩ <;>
    simp [process_frame, runDetections, alertUpdate_in, alertUpdate_out,
          alertUpdate_tracked, recordOccupancy, fpsUpdate_in, fpsUpdate_out,
          fpsUpdate_tracked, bumpFrame]

theorem process_frame_counts (p1 p2 : Int × Int) (th : Int) (now : Int)
    (ds : List Detection) (s : MonitorState)
    (hnd : (ds.map Detection.id).Nodup) :
    (process_frame p1 p2 th now (some ds) s).in_zone_count =
      s.in_zone_count +
        entrySum (zoneBounds p1 p2) s.tracked_objects ds ∧
    (process_frame p1 p2 th now (some ds) s).out_zone_count =
      s.out_zone_count +
        exitSum (zoneBounds p1 p2) s.tracked_objects ds := by
  obtain ⟨h1, h2⟩ :=
    foldTrack_counts (zoneBounds p1 p2) ds ∅ (fpsUpdate now (bumpFrame s)) hnd
  rw [fpsUpdate_tracked] at h1 h2
  constructor
  · simp only [process_frame, runDetections, alertUpdate_in, recordOccupancy]
    rw [h1, fpsUpdate_in]
    rfl
  · simp only [process_frame, runDetections, alertUpdate_out, recordOccupancy]
    rw [h2, fpsUpdate_out]
    rfl

theorem process_frame_mono (p1 p2 : Int × Int) (th : Int) (now : Int)
    (dets : Option (List Detection)) (s : MonitorState) :
    s.in_zone_count ≤ (process_frame p1 p2 th now dets s).in_zone_count ∧
    s.out_zone_count ≤ (process_frame p1 p2 th now dets s).out_zone_count := by
  cases dets with
  | none =>
    obtain ⟨h1, h2, _⟩ := process_frame_none_counts p1 p2 th now s
    rw [h1, h2]
    exact ⟨le_refl _, le_refl _⟩
  | some ds =>
    obtain ⟨g1, g2⟩ :=
      foldTrack_mono (zoneBounds p1 p2) ds (∅, fpsUpdate now (bumpFrame s))
    constructor
    · simp only [process_frame, runDetections, alertUpdate_in, recordOccupancy]
      calc s.in_zone_count
          = (fpsUpdate now (bumpFrame s)).in_zone_count := by
            rw [fpsUpdate_in]; rfl
        _ ≤ _ := g1
    · simp only [process_frame, runDetections, alertUpdate_out, recordOccupancy]
      calc s.out_zone_count
          = (fpsUpdate now (bumpFrame s)).out_zone_count := by
            rw [fpsUpdate_out]; rfl
        _ ≤ _ := g2

theorem process_frame_lookup_mem (p1 p2 : Int × Int) (th : Int) (now : Int)
    (ds : List Detection) (s : MonitorState) (det : Detection)
    (hnd : (ds.map Detection.id).Nodup) (hmem : det ∈ ds) :
    dictLookup (process_frame p1 p2 th now (some ds) s).tracked_objects det.id =
      some (insideB (zoneBounds p1 p2) det) := by
  simp only [process_frame, runDetections, alertUpdate_tracked, recordOccupancy]
  exact foldTrack_lookup_mem (zoneBounds p1 p2) ds ∅
    (fpsUpdate now (bumpFrame s)) det hnd hmem

theorem process_frame_lookup_notmem (p1 p2 : Int × Int) (th : Int) (now : Int)
    (ds : List Detection) (s : MonitorState) (j : Int)
    (hj : j ∉ ds.map Detection.id) :
    dictLookup (process_frame p1 p2 th now (some ds) s).tracked_objects j =
      dictLookup s.tracked_objects j := by
  simp only [process_frame, runDetections, alertUpdate_tracked, recordOccupancy]
  rw [foldTrack_lookup_notmem (zoneBounds p1 p2) ds ∅
        (fpsUpdate now (bumpFrame s)) j hj, fpsUpdate_tracked]
  rfl

theorem process_frame_some_preserved (p1 p2 : Int × Int) (th : Int) (now : Int)
    (ds : List Detection) (s : MonitorState) (j : Int) (b : Bool)
    (hb : dictLookup s.tracked_objects j = some b) :
    ∃ c, dictLookup
        (process_frame p1 p2 th now (some ds) s).tracked_objects j = some c := by
  simp only [process_frame, runDetections, alertUpdate_tracked, recordOccupancy]
  refine foldTrack_some_preserved (zoneBounds p1 p2) ds ∅
    (fpsUpdate now (bumpFrame s)) j b ?_
  rw [fpsUpdate_tracked]
  exact hb

/-! ### History lemmas -/

theorem pushHistory_length_le (h : List Nat) (x : Nat) :
    (pushHistory h x).length ≤ 100 := by
  unfold pushHistory
  split
  · simp
    omega
  · simp [List.length_drop]
    omega

theorem lastN_of_le (n : Nat) (l : List Nat) (h : l.length ≤ n) :
    lastN n l = l := by
  unfold lastN
  rw [Nat.sub_eq_zero_of_le h, List.drop_zero]

theorem pushHistory_lastN (occs : List Nat) (x : Nat) :
    pushHistory (lastN 100 occs) x = lastN 100 (occs ++ [x]) := by
  by_cases hL : occs.length < 100
  · rw [lastN_of_le 100 occs (le_of_lt hL)]
    unfold pushHistory
    rw [if_pos hL,
        lastN_of_le 100 (occs ++ [x])
          (by simp only [List.length_append, List.length_singleton]; omega)]
  · push_neg at hL
    have hlen : (lastN 100 occs).length = 100 := by
      unfold lastN
      rw [List.length_drop]
      omega
    unfold pushHistory
    rw [hlen, if_neg (lt_irrefl 100)]
    unfold lastN
    rw [List.drop_drop]
    simp only [List.length_append, List.length_singleton]
    rw [List.drop_append_of_le_length (by omega)]
    have hidx : occs.length - 100 + (100 + 1 - 100) = occs.length + 1 - 100 := by
      omega
    rw [hidx]

theorem runFrames_nil (s : MonitorState) : runFrames s [] = s := rfl

theorem runFrames_cons (s : MonitorState) (i : FrameInput)
    (rest : List FrameInput) :
    runFrames s (i :: rest) =
      runFrames (process_frame i.p1 i.p2 i.th i.now i.dets s) rest := rfl

theorem frameInput_eta (i : FrameInput) :
    (⟨i.p1, i.p2, i.th, i.now, i.dets⟩ : FrameInput) = i := rfl

theorem runFrames_hist (inputs : List FrameInput) :
    ∀ (s : MonitorState) (occs : List Nat),
      s.occupancy_history = lastN 100 occs →
      (runFrames s inputs).occupancy_history =
        lastN 100 (occs ++ inputs.map frameOcc) := by
  induction inputs with
  | nil =>
    intro s occs h
    simpa [runFrames] using h
  | cons i rest ih =>
    intro s occs h
    have hstep :
        (process_frame i.p1 i.p2 i.th i.now i.dets s).occupancy_history =
          lastN 100 (occs ++ [frameOcc i]) := by
      rw [process_frame_hist, frameInput_eta, h, pushHistory_lastN]
    rw [runFrames_cons]
    have := ih _ _ hstep
    simpa [List.append_assoc] using this

theorem runFrames_mono (inputs : List FrameInput) :
    ∀ s : MonitorState,
      s.in_zone_count ≤ (runFrames s inputs).in_zone_count ∧
      s.out_zone_count ≤ (runFrames s inputs).out_zone_count := by
  induction inputs with
  | nil => intro s; exact ⟨le_refl _, le_refl _⟩
  | cons i rest ih =>
    intro s
    rw [runFrames_cons]
    obtain ⟨h1, h2⟩ := process_frame_mono i.p1 i.p2 i.th i.now i.dets s
    obtain ⟨g1, g2⟩ := ih (process_frame i.p1 i.p2 i.th i.now i.dets s)
    exact ⟨le_trans h1 g1, le_trans h2 g2⟩

theorem reachable_hist_le (s : MonitorState) (h : Reachable s) :
    s.occupancy_history.length ≤ 100 := by
  cases h with
  | init t0 => simp [initState]
  | step i hr => rw [process_frame_hist]; exact pushHistory_length_le _ _
  | reset hr => simp [reset_stats]

theorem entrySum_erase (z : Bounds) (m : List (Int × Bool))
    (ds : List Detection) (det : Detection) (hmem : det ∈ ds) :
    entrySum z m ds = entrySum z m (ds.erase det) + entryDelta z m det := by
  have hp : ds.Perm (det :: ds.erase det) := List.perm_cons_erase hmem
  unfold entrySum
  rw [(hp.map (entryDelta z m)).sum_eq]
  simp [Nat.add_comm]

theorem exitSum_erase (z : Bounds) (m : List (Int × Bool))
    (ds : List Detection) (det : Detection) (hmem : det ∈ ds) :
    exitSum z m ds = exitSum z m (ds.erase det) + exitDelta z m det := by
  have hp : ds.Perm (det :: ds.erase det) := List.perm_cons_erase hmem
  unfold exitSum
  rw [(hp.map (exitDelta z m)).sum_eq]
  simp [Nat.add_comm]

/-! ### The claims -/

/-- Claim C1: in every `process_frame` call, for every track identity in
the frame, the stored membership becomes its current containment state;
the entry counter grows by the per-identity contributions, where a
first-seen identity contributes 0 to both counters, an outside-to-inside
identity contributes exactly 1 entry and 0 exits, an inside-to-outside
identity contributes exactly 1 exit and 0 entries, and an identity with
unchanged containment contributes 0 to both. -/
theorem c1_transition_logic (p1 p2 : Int × Int) (th : Int) (now : Int)
    (ds : List Detection) (s : MonitorState) (det : Detection)
    (hnd : (ds.map Detection.id).Nodup) (hmem : det ∈ ds) :
    dictLookup (process_frame p1 p2 th now (some ds) s).tracked_objects det.id =
      some (insideB (zoneBounds p1 p2) det) ∧
    (process_frame p1 p2 th now (some ds) s).in_zone_count =
      s.in_zone_count +
        entrySum (zoneBounds p1 p2) s.tracked_objects (ds.erase det) +
        entryDelta (zoneBounds p1 p2) s.tracked_objects det ∧
    (process_frame p1 p2 th now (some ds) s).out_zone_count =
      s.out_zone_count +
        exitSum (zoneBounds p1 p2) s.tracked_objects (ds.erase det) +
        exitDelta (zoneBounds p1 p2) s.tracked_objects det ∧
    (dictLookup s.tracked_objects det.id = none →
      entryDelta (zoneBounds p1 p2) s.tracked_objects det = 0 ∧
      exitDelta (zoneBounds p1 p2) s.tracked_objects det = 0) ∧
    (dictLookup s.tracked_objects det.id = some false →
      insideB (zoneBounds p1 p2) det = true →
      entryDelta (zoneBounds p1 p2) s.tracked_objects det = 1 ∧
      exitDelta (zoneBounds p1 p2) s.tracked_objects det = 0) ∧
    (dictLookup s.tracked_objects det.id = some true →
      insideB (zoneBounds p1 p2) det = false →
      exitDelta (zoneBounds p1 p2) s.tracked_objects det = 1 ∧
      entryDelta (zoneBounds p1 p2) s.tracked_objects det = 0) ∧
    (dictLookup s.tracked_objects det.id =
        some (insideB (zoneBounds p1 p2) det) →
      entryDelta (zoneBounds p1 p2) s.tracked_objects det = 0 ∧
      exitDelta (zoneBounds p1 p2) s.tracked_objects det = 0) := by
  obtain ⟨hin, hout⟩ := process_frame_counts p1 p2 th now ds s hnd
  refine ⟨process_frame_lookup_mem p1 p2 th now ds s det hnd hmem,
          ?_, ?_, ?_, ?_, ?_, ?_⟩
  · rw [hin, entrySum_erase _ _ _ _ hmem, Nat.add_assoc]
  · rw [hout, exitSum_erase _ _ _ _ hmem, Nat.add_assoc]
  · intro h
    unfold entryDelta exitDelta
    rw [h]
    exact ⟨rfl, rfl⟩
  · intro h hb
    unfold entryDelta exitDelta
    rw [h, hb]
    exact ⟨rfl, rfl⟩
  · intro h hb
    unfold entryDelta exitDelta
    rw [h, hb]
    exact ⟨rfl, rfl⟩
  · intro h
    unfold entryDelta exitDelta
    cases hb : insideB (zoneBounds p1 p2) det <;> rw [hb] at h <;>
      rw [h] <;> exact ⟨rfl, rfl⟩

/-- Witness for C1: track 1 first observed inside the zone
(100,100)-(300,300) gets membership inside. -/
theorem c1_transition_logic_witness :
    (([(⟨1, 150, 100, 250, 200⟩ : Detection)].map Detection.id).Nodup ∧
     (⟨1, 150, 100, 250, 200⟩ : Detection) ∈
       [(⟨1, 150, 100, 250, 200⟩ : Detection)]) ∧
    dictLookup (process_frame (100, 100) (300, 300) 10 0
        (some [⟨1, 150, 100, 250, 200⟩]) (initState 0)).tracked_objects 1 =
      some true := by
  refine ⟨⟨by decide, by decide⟩, ?_⟩
  have h := (c1_transition_logic (100, 100) (300, 300) 10 0
    [⟨1, 150, 100, 250, 200⟩] (initState 0) ⟨1, 150, 100, 250, 200⟩
    (by decide) (by decide)).1
  have hb : insideB (zoneBounds (100, 100) (300, 300))
      ⟨1, 150, 100, 250, 200⟩ = true := by decide
  rw [hb] at h
  exact h

/-- Claim C2: the occupancy in the state returned by `process_frame`
equals the number of distinct track identities of that exact frame whose
anchor is inside the zone, for every prior state; a frame without
tracked boxes yields occupancy 0. -/
theorem c2_occupancy_consistency (p1 p2 : Int × Int) (th : Int) (now : Int)
    (ds : List Detection) (s : MonitorState) :
    (process_frame p1 p2 th now (some ds) s).current_zone_occupancy =
      ((ds.filter (fun d => insideB (zoneBounds p1 p2) d)).map
        Detection.id).toFinset.card ∧
    (process_frame p1 p2 th now none s).current_zone_occupancy = 0 := by
  constructor
  · rw [process_frame_occ]
    simp [frameOcc, insideIds]
  · rw [process_frame_occ]
    simp [frameOcc]

/-- Claim C3: the containment test uses the bottom-center anchor, the
normalized bounds satisfy min ≤ max, the boundaries are inclusive (an
anchor exactly on an edge is inside), and the result is invariant under
swapping the two corner points. -/
theorem c3_containment_test (p1 p2 : Int × Int) (d : Detection) :
    (zoneBounds p1 p2).mnx ≤ (zoneBounds p1 p2).mxx ∧
    (zoneBounds p1 p2).mny ≤ (zoneBounds p1 p2).mxy ∧
    (insideB (zoneBounds p1 p2) d = true ↔
      ((zoneBounds p1 p2).mnx ≤ Int.tdiv (d.x1 + d.x2) 2 ∧
       Int.tdiv (d.x1 + d.x2) 2 ≤ (zoneBounds p1 p2).mxx ∧
       (zoneBounds p1 p2).mny ≤ d.y2 ∧
       d.y2 ≤ (zoneBounds p1 p2).mxy)) ∧
    insideB (zoneBounds p1 p2) d = insideB (zoneBounds p2 p1) d ∧
    (anchorX d = (zoneBounds p1 p2).mnx →
      (zoneBounds p1 p2).mny ≤ anchorY d →
      anchorY d ≤ (zoneBounds p1 p2).mxy →
      insideB (zoneBounds p1 p2) d = true) := by
  refine ⟨min_le_max, min_le_max, ?_, ?_, ?_⟩
  · simp [insideB, anchorX, anchorY, and_assoc]
  · simp [insideB, zoneBounds, min_comm, max_comm]
  · intro h1 h2 h3
    simp only [insideB, Bool.and_eq_true, decide_eq_true_eq]
    exact ⟨⟨le_of_eq h1.symm, by rw [h1]; exact min_le_max⟩, h2, h3⟩

/-- Witness for C3: corner points given in swapped order, anchor exactly
on the left zone edge, classified inside. -/
theorem c3_containment_test_witness :
    insideB (zoneBounds (300, 100) (100, 300)) ⟨7, 50, 0, 150, 200⟩ = true :=
  (c3_containment_test (300, 100) (100, 300) ⟨7, 50, 0, 150, 200⟩).2.2.2.2
    (by decide) (by decide) (by decide)

/-- Claim C4: every `process_frame` call increments the frame counter by
exactly 1 and increments the alert-frame count by 1 exactly when the
current-frame occupancy meets the threshold; with threshold 2 and two
tracks inside the zone for 3 consecutive frames the alert count grows by
exactly 3. -/
theorem c4_frame_and_alert_tally :
    (∀ (p1 p2 : Int × Int) (th : Int) (now : Int)
       (dets : Option (List Detection)) (s : MonitorState),
      (process_frame p1 p2 th now dets s).frame_count = s.frame_count + 1 ∧
      (process_frame p1 p2 th now dets s).alerts_count =
        s.alerts_count +
          (if th ≤
              ((process_frame p1 p2 th now dets s).current_zone_occupancy : Int)
           then 1 else 0)) ∧
    (runFrames (initState 0)
        [⟨(0, 0), (300, 300), 2, 0, some [⟨1, 100, 100, 200, 200⟩,
                                          ⟨2, 100, 100, 200, 250⟩]⟩,
         ⟨(0, 0), (300, 300), 2, 0, some [⟨1, 100, 100, 200, 200⟩,
                                          ⟨2, 100, 100, 200, 250⟩]⟩,
         ⟨(0, 0), (300, 300), 2, 0, some [⟨1, 100, 100, 200, 200⟩,
                                          ⟨2, 100, 100, 200, 250⟩]⟩]).alerts_count
      = 3 := by
  constructor
  · intro p1 p2 th now dets s
    refine ⟨process_frame_frame_count p1 p2 th now dets s, ?_⟩
    rw [process_frame_alerts, process_frame_occ]
  · decide

/-- Claim C5 counterexample: with alert threshold 0, a frame with no
tracked boxes still increments the alert-frame count (occupancy 0 meets
the threshold), so the alert counter is not unchanged for every
threshold. -/
theorem c5_counterexample :
    (initState 0).alerts_count = 0 ∧
    (process_frame (0, 0) (10, 10) 0 0 none (initState 0)).alerts_count = 1 := by
  decide

/-- Claim C5 (amended): a `process_frame` call with empty or malformed
detection input succeeds, resolves occupancy to 0, leaves the entry
count, exit count and every stored membership unchanged, increments the
frame counter by 1, and leaves the alert-frame count unchanged exactly
when the threshold is positive (a threshold ≤ 0 is met by occupancy 0
and increments it by 1). -/
theorem c5_empty_frame_amended (p1 p2 : Int × Int) (th : Int) (now : Int)
    (s : MonitorState) :
    ((process_frame p1 p2 th now none s).in_zone_count = s.in_zone_count ∧
     (process_frame p1 p2 th now none s).out_zone_count = s.out_zone_count ∧
     (process_frame p1 p2 th now none s).tracked_objects = s.tracked_objects ∧
     (process_frame p1 p2 th now none s).current_zone_occupancy = 0 ∧
     (process_frame p1 p2 th now none s).frame_count = s.frame_count + 1 ∧
     (process_frame p1 p2 th now none s).alerts_count =
       s.alerts_count + (if th ≤ 0 then 1 else 0)) ∧
    ((process_frame p1 p2 th now (some []) s).in_zone_count =
       s.in_zone_count ∧
     (process_frame p1 p2 th now (some []) s).out_zone_count =
       s.out_zone_count ∧
     (process_frame p1 p2 th now (some []) s).tracked_objects =
       s.tracked_objects ∧
     (process_frame p1 p2 th now (some []) s).current_zone_occupancy = 0 ∧
     (process_frame p1 p2 th now (some []) s).frame_count =
       s.frame_count + 1 ∧
     (process_frame p1 p2 th now (some []) s).alerts_count =
       s.alerts_count + (if th ≤ 0 then 1 else 0)) := by
  constructor
  · obtain ⟨h1, h2, h3⟩ := process_frame_none_counts p1 p2 th now s
    refine ⟨h1, h2, h3, ?_, process_frame_frame_count p1 p2 th now none s, ?_⟩
    · rw [process_frame_occ]
      rfl
    · rw [process_frame_alerts]
      simp [frameOcc]
  · obtain ⟨h1, h2, h3⟩ := process_frame_nil_counts p1 p2 th now s
    refine ⟨h1, h2, h3, ?_, process_frame_frame_count p1 p2 th now (some []) s,
            ?_⟩
    · rw [process_frame_occ]
      simp [frameOcc, insideIds]
    · rw [process_frame_alerts]
      simp [frameOcc, insideIds]

/-- Claim C6: a track identity absent from the frame keeps its stored
membership unchanged, is never part of the frame's occupant set,
membership entries are never deleted, and (scenario B) a track first
observed inside and then gone from detections yields occupancy 0 with
entry and exit counts unchanged and its membership still inside. -/
theorem c6_absent_track (p1 p2 : Int × Int) (th : Int) (now : Int)
    (ds : List Detection) (s : MonitorState) (j : Int)
    (hj : j ∉ ds.map Detection.id) :
    dictLookup (process_frame p1 p2 th now (some ds) s).tracked_objects j =
      dictLookup s.tracked_objects j ∧
    j ∉ insideIds (zoneBounds p1 p2) ds ∧
    (∀ (k : Int) (b : Bool), dictLookup s.tracked_objects k = some b →
      ∃ c, dictLookup
          (process_frame p1 p2 th now (some ds) s).tracked_objects k =
        some c) ∧
    ((runFrames (initState 0)
        [⟨(100, 100), (300, 300), 10, 0, some [⟨5, 150, 100, 250, 200⟩]⟩,
         ⟨(100, 100), (300, 300), 10, 0, some []⟩]).current_zone_occupancy
        = 0 ∧
     (runFrames (initState 0)
        [⟨(100, 100), (300, 300), 10, 0, some [⟨5, 150, 100, 250, 200⟩]⟩,
         ⟨(100, 100), (300, 300), 10, 0, some []⟩]).in_zone_count = 0 ∧
     (runFrames (initState 0)
        [⟨(100, 100), (300, 300), 10, 0, some [⟨5, 150, 100, 250, 200⟩]⟩,
         ⟨(100, 100), (300, 300), 10, 0, some []⟩]).out_zone_count = 0 ∧
     dictLookup (runFrames (initState 0)
        [⟨(100, 100), (300, 300), 10, 0, some [⟨5, 150, 100, 250, 200⟩]⟩,
         ⟨(100, 100), (300, 300), 10, 0, some []⟩]).tracked_objects 5 =
       some true) := by
  refine ⟨process_frame_lookup_notmem p1 p2 th now ds s j hj, ?_, ?_,
          by decide⟩
  · intro hmem
    unfold insideIds at hmem
    rw [List.mem_toFinset] at hmem
    obtain ⟨d, hd, hdj⟩ := List.mem_map.mp hmem
    exact hj (hdj ▸ List.mem_map_of_mem Detection.id (List.mem_of_mem_filter hd))
  · intro k b hb
    exact process_frame_some_preserved p1 p2 th now ds s k b hb

/-- Witness for C6: track 9 is absent from a frame containing only
track 5, and its (empty) membership slot is untouched. -/
theorem c6_absent_track_witness :
    ((9 : Int) ∉ ([(⟨5, 150, 100, 250, 200⟩ : Detection)].map Detection.id)) ∧
    dictLookup (process_frame (100, 100) (300, 300) 10 0
        (some [⟨5, 150, 100, 250, 200⟩]) (initState 0)).tracked_objects 9 =
      dictLookup (initState 0).tracked_objects 9 := by
  refine ⟨by decide, ?_⟩
  exact (c6_absent_track (100, 100) (300, 300) 10 0 [⟨5, 150, 100, 250, 200⟩]
    (initState 0) 9 (by decide)).1

/-- Claim C7: `reset_stats` zeroes the entry count, exit count, current
occupancy, alert-frame count and frame counter, empties the membership
map and the occupancy history, and is idempotent. -/
theorem c7_reset_idempotent (s : MonitorState) :
    reset_stats (reset_stats s) = reset_stats s ∧
    (reset_stats s).in_zone_count = 0 ∧
    (reset_stats s).out_zone_count = 0 ∧
    (reset_stats s).current_zone_occupancy = 0 ∧
    (reset_stats s).alerts_count = 0 ∧
    (reset_stats s).frame_count = 0 ∧
    (reset_stats s).tracked_objects = [] ∧
    (reset_stats s).occupancy_history = [] :=
  ⟨rfl, rfl, rfl, rfl, rfl, rfl, rfl, rfl⟩

/-- Claim C8: the cumulative entry and exit counts are non-decreasing
across every single `process_frame` call and every sequence of calls. -/
theorem c8_counter_monotonicity :
    (∀ (p1 p2 : Int × Int) (th : Int) (now : Int)
       (dets : Option (List Detection)) (s : MonitorState),
      s.in_zone_count ≤ (process_frame p1 p2 th now dets s).in_zone_count ∧
      s.out_zone_count ≤ (process_frame p1 p2 th now dets s).out_zone_count) ∧
    (∀ (s : MonitorState) (inputs : List FrameInput),
      s.in_zone_count ≤ (runFrames s inputs).in_zone_count ∧
      s.out_zone_count ≤ (runFrames s inputs).out_zone_count) :=
  ⟨fun p1 p2 th now dets s => process_frame_mono p1 p2 th now dets s,
   fun s inputs => runFrames_mono inputs s⟩

/-- Claim C9: every reachable state's occupancy history has at most 100
entries, and after any sequence of `process_frame` calls from a fresh
monitor the history is exactly the occupancies of the most recent
min(n, 100) frames, oldest first. -/
theorem c9_history_bounded_fifo :
    (∀ s : MonitorState, Reachable s → s.occupancy_history.length ≤ 100) ∧
    (∀ (t0 : Int) (inputs : List FrameInput),
      (runFrames (initState t0) inputs).occupancy_history =
        lastN 100 (inputs.map frameOcc)) := by
  constructor
  · exact reachable_hist_le
  · intro t0 inputs
    have h := runFrames_hist inputs (initState t0) []
      (by simp [initState, lastN])
    simpa using h

/-- Witness for C9: the fresh state is reachable with history within
bound, and one frame with no detections leaves history [0]. -/
theorem c9_history_bounded_fifo_witness :
    (initState 0).occupancy_history.length ≤ 100 ∧
    (runFrames (initState 0) [⟨(0, 0), (10, 10), 10, 0, none⟩]).occupancy_history
      = lastN 100 [0] := by
  constructor
  · exact c9_history_bounded_fifo.1 (initState 0) (Reachable.init 0)
  · have h := c9_history_bounded_fifo.2 0 [⟨(0, 0), (10, 10), 10, 0, none⟩]
    simpa [frameOcc] using h

/-- Claim C10: `reset_stats` keeps the fps window start, the window
frame count and the last computed fps value, and modifies exactly the
counters, the membership map, the frame counter and the rolling
histories. -/
theorem c10_reset_preserves_fps (s : MonitorState) :
    (reset_stats s).fps_start_time = s.fps_start_time ∧
    (reset_stats s).fps_frame_count = s.fps_frame_count ∧
    (reset_stats s).current_fps = s.current_fps ∧
    reset_stats s =
      { s with in_zone_count := 0, out_zone_count := 0,
               current_zone_occupancy := 0, alerts_count := 0,
               frame_count := 0, tracked_objects := [],
               occupancy_history := [], in_history := [],
               out_history := [] } :=
  ⟨rfl, rfl, rfl, rfl⟩
